import Mathlib

/-!
Verification of the PersonaGPT conversation relay service.

The service keeps one shared transcript (a list of role-tagged turns) in
process memory.  `send_message` appends a user turn, calls the external
completion provider with the full transcript, appends the assistant reply on
success, and maps any provider failure to an HTTP 500 carrying the failure
text.  `reset_conversation` truncates the transcript back to the single
system turn.  We embed the handlers as pure functions with explicit state
passing; the external OpenAI call is a parameter of type
`List Turn → Except String ChatCompletion`.
-/

namespace PersonaGPT

/-- Role tag of one chat turn: `system`, `user`, or `assistant`. -/
inductive Role
  | system
  | user
  | assistant
  deriving DecidableEq, Repr

/-- One message of the transcript: a role plus its text content
(the dicts `{"role": ..., "content": ...}` of `chat.py`). -/
structure Turn where
  role : Role
  content : String
  deriving DecidableEq, Repr

/-- The fixed persona preamble string used in `chat.py` both at module load
and inside `reset_conversation`. -/
def personaPreamble : String :=
  "You are PersonaGPT, a helpful and friendly AI assistant."

/-- The single system turn carrying the persona preamble. -/
def systemTurn : Turn :=
  { role := Role.system, content := personaPreamble }

/-- Initial value of the module-level `conversation_history` list in
`chat.py`: exactly one system turn. -/
def conversation_history : List Turn :=
  [systemTurn]

/-- The `message` object inside one choice of an OpenAI chat completion
response (`chatbot.py` reads `.message.content`). -/
structure ChatMessage where
  content : String
  deriving DecidableEq, Repr

/-- One element of the `choices` array of a chat completion response. -/
structure Choice where
  message : ChatMessage
  deriving DecidableEq, Repr

/-- The provider response shape consumed by `get_chat_response`: an ordered
sequence of choices. -/
structure ChatCompletion where
  choices : List Choice
  deriving DecidableEq, Repr

/-- Embedding of `chatbot.get_chat_response`.  The network call
`client.chat.completions.create(...)` is the parameter `api`; a raised
exception is an `Except.error` carrying its text.  The body then evaluates
`response.choices[0].message.content`: Python indexing of an empty list
raises `IndexError("list index out of range")`, which we model as the
corresponding error value; otherwise the first choice's content is
returned. -/
def get_chat_response (api : List Turn → Except String ChatCompletion)
    (messages : List Turn) : Except String String :=
  match api messages with
  | Except.error e => Except.error e
  | Except.ok response =>
    match response.choices with
    | [] => Except.error "list index out of range"
    | choice :: _ => Except.ok choice.message.content

/-- Response body of a successful `/api/chat/send` call (`ChatResponse`
schema): `{"reply": ...}`. -/
structure ChatResponse where
  reply : String
  deriving DecidableEq, Repr

/-- Outcome of the `send_message` handler at the HTTP boundary: either the
`ChatResponse` body, or an `HTTPException` with a status code and a detail
string. -/
inductive SendOutcome
  | ok (body : ChatResponse)
  | httpError (status : Nat) (detail : String)
  deriving DecidableEq, Repr

/-- Embedding of the `send_message` handler in `chat.py`.  Inside the `try`
block it appends the user turn to the transcript, calls
`get_chat_response` on the full transcript, appends the assistant turn on
success and returns `ChatResponse(reply=reply)`; any exception is caught
and re-raised as `HTTPException(status_code=500, detail=str(e))`, leaving
the transcript with only the user turn appended. -/
def send_message (api : List Turn → Except String ChatCompletion)
    (history : List Turn) (message : String) : List Turn × SendOutcome :=
  match get_chat_response api
      (history ++ [{ role := Role.user, content := message }]) with
  | Except.ok reply =>
      ((history ++ [{ role := Role.user, content := message }]) ++
         [{ role := Role.assistant, content := reply }],
       SendOutcome.ok { reply := reply })
  | Except.error e =>
      (history ++ [{ role := Role.user, content := message }],
       SendOutcome.httpError 500 e)

/-- Response body of `/api/chat/reset`: `{"message": "Conversation reset"}`. -/
structure ResetBody where
  message : String
  deriving DecidableEq, Repr

/-- Embedding of the `reset_conversation` handler in `chat.py`: it clears
the transcript, appends the single system turn, and returns the fixed
acknowledgement body.  There is no failure branch. -/
def reset_conversation (_history : List Turn) : List Turn × ResetBody :=
  ([systemTurn], { message := "Conversation reset" })

/-- Response body of `GET /health`: `{"status": "healthy"}`. -/
structure HealthBody where
  status : String
  deriving DecidableEq, Repr

/-- Embedding of the `health` handler in `main.py`: it reads and writes no
conversation state and returns the fixed liveness body. -/
def health (history : List Turn) : List Turn × HealthBody :=
  (history, { status := "healthy" })

/-- Response body of `GET /`: a `FileResponse` serving the named static
file. -/
structure FileBody where
  path : String
  deriving DecidableEq, Repr

/-- Embedding of the `root` handler in `main.py`: it reads and writes no
conversation state and serves the static landing page. -/
def root (history : List Turn) : List Turn × FileBody :=
  (history, { path := "static/index.html" })

/-- Transcript states reachable from service start by any sequence of
`send_message` (with any provider behaviour) and `reset_conversation`
calls. -/
inductive Reachable : List Turn → Prop
  | init : Reachable conversation_history
  | send (api : List Turn → Except String ChatCompletion) (m : String)
      {h : List Turn} : Reachable h → Reachable (send_message api h m).1
  | reset {h : List Turn} : Reachable h → Reachable (reset_conversation h).1

/-- Transcript well-formedness: the first turn is the system turn with the
persona preamble, and no later turn has role `system`. -/
def WellFormed (h : List Turn) : Prop :=
  h.head? = some systemTurn ∧ ∀ t ∈ h.tail, t.role ≠ Role.system

/-- The transcript produced by `send_message` is the input transcript
followed by the user turn alone (failure branch) or by the user turn and
an assistant turn (success branch). -/
lemma send_message_fst (api : List Turn → Except String ChatCompletion)
    (h : List Turn) (m : String) :
    (send_message api h m).1 =
        h ++ [{ role := Role.user, content := m }] ∨
      ∃ r, (send_message api h m).1 =
        h ++ [{ role := Role.user, content := m },
              { role := Role.assistant, content := r }] := by
  cases hres : get_chat_response api
      (h ++ [{ role := Role.user, content := m }]) with
  | ok r =>
      right
      exact ⟨r, by simp [send_message, hres]⟩
  | error e =>
      left
      simp [send_message, hres]

/-- Appending turns none of which has role `system` preserves transcript
well-formedness. -/
lemma wellFormed_append (h extra : List Turn) (hw : WellFormed h)
    (hextra : ∀ t ∈ extra, t.role ≠ Role.system) :
    WellFormed (h ++ extra) := by
  obtain ⟨hhead, htail⟩ := hw
  cases h with
  | nil => simp at hhead
  | cons a t =>
      refine ⟨by simpa using hhead, ?_⟩
      intro x hx
      simp at hx
      rcases hx with hx | hx
      · exact htail x (by simpa using hx)
      · exact hextra x hx

/-- The initial transcript is well-formed. -/
lemma conversation_history_wellFormed : WellFormed conversation_history :=
  ⟨rfl, by intro t ht; simp [conversation_history] at ht⟩

/-- Claim C1: whenever the completion provider succeeds with reply `r` on
the transcript extended by the user turn, `send_message` appends the user
turn `{user, m}` then the assistant turn `{assistant, r}` after all prior
turns and returns the reply body `{"reply": r}`. -/
theorem send_message_appends_on_success
    (api : List Turn → Except String ChatCompletion) (h : List Turn)
    (m r : String)
    (hok : get_chat_response api
      (h ++ [{ role := Role.user, content := m }]) = Except.ok r) :
    send_message api h m =
      (h ++ [{ role := Role.user, content := m },
             { role := Role.assistant, content := r }],
       SendOutcome.ok { reply := r }) := by
  simp [send_message, hok]

/-- A provider stub returning one choice with content `"pong"`. -/
def pongCompletion : ChatCompletion :=
  { choices := [{ message := { content := "pong" } }] }

/-- Witness for C1: with a stub provider answering `"pong"`,
`send_message` on the initial transcript and message `"ping"` returns
`"pong"` and appends `{user, "ping"}` then `{assistant, "pong"}`. -/
theorem send_message_appends_on_success_witness :
    send_message (fun _ => Except.ok pongCompletion)
        conversation_history "ping" =
      (conversation_history ++
         [{ role := Role.user, content := "ping" },
          { role := Role.assistant, content := "pong" }],
       SendOutcome.ok { reply := "pong" }) :=
  send_message_appends_on_success (fun _ => Except.ok pongCompletion)
    conversation_history "ping" "pong" rfl

/-- Claim C2: whenever the provider call fails with description `e`,
`send_message` surfaces an HTTP 500 whose detail is `e`, and the transcript
afterwards is exactly the prior turns plus the appended user turn, with no
assistant turn. -/
theorem send_message_failure_partial_state
    (api : List Turn → Except String ChatCompletion) (h : List Turn)
    (m e : String)
    (herr : get_chat_response api
      (h ++ [{ role := Role.user, content := m }]) = Except.error e) :
    send_message api h m =
      (h ++ [{ role := Role.user, content := m }],
       SendOutcome.httpError 500 e) := by
  simp [send_message, herr]

/-- Witness for C2: with a stub provider that always fails with `"boom"`,
`send_message` on the initial transcript and message `"hi"` yields a 500
with detail `"boom"` and only the user turn appended. -/
theorem send_message_failure_partial_state_witness :
    send_message (fun _ => Except.error "boom") conversation_history "hi" =
      (conversation_history ++ [{ role := Role.user, content := "hi" }],
       SendOutcome.httpError 500 "boom") :=
  send_message_failure_partial_state (fun _ => Except.error "boom")
    conversation_history "hi" "boom" rfl

/-- Claim C3: at service start the transcript is exactly one turn whose
role is `system`, and after any `reset_conversation` call the transcript is
that same single-system-turn state. -/
theorem initial_and_reset_single_system_turn :
    (conversation_history.length = 1 ∧
      conversation_history = [systemTurn] ∧
      systemTurn.role = Role.system) ∧
    ∀ h : List Turn, (reset_conversation h).1 = conversation_history :=
  ⟨⟨rfl, rfl, rfl⟩, fun _ => rfl⟩

/-- Claim C4: `reset_conversation` is idempotent: from any transcript state,
resetting once and resetting twice in a row produce the identical
transcript, namely the single-system-turn state. -/
theorem reset_conversation_idempotent :
    ∀ h : List Turn,
      (reset_conversation (reset_conversation h).1).1 =
        (reset_conversation h).1 ∧
      (reset_conversation h).1 = conversation_history :=
  fun _ => ⟨rfl, rfl⟩

/-- Claim C5: `send_message` only appends: the prior transcript is an
initial segment of the resulting transcript, so every previously existing
turn is unchanged in content, role and relative position. -/
theorem send_message_only_appends
    (api : List Turn → Except String ChatCompletion) (h : List Turn)
    (m : String) :
    ∃ extra : List Turn, (send_message api h m).1 = h ++ extra := by
  rcases send_message_fst api h m with heq | ⟨r, heq⟩
  · exact ⟨[{ role := Role.user, content := m }], heq⟩
  · exact ⟨[{ role := Role.user, content := m },
            { role := Role.assistant, content := r }], heq⟩

/-- Claim C6: `reset_conversation` has no failure path: it is a total
function and always returns the acknowledgement body
`{"message": "Conversation reset"}`. -/
theorem reset_conversation_always_succeeds :
    ∀ h : List Turn,
      (reset_conversation h).2 = { message := "Conversation reset" } :=
  fun _ => rfl

/-- Claim C7: `send_message` performs no local validation: for every
message `m`, including the empty string, the user turn `{user, m}` is
appended as-is immediately after the prior transcript, before any possible
rejection. -/
theorem send_message_no_validation
    (api : List Turn → Except String ChatCompletion) (h : List Turn)
    (m : String) :
    ∃ rest : List Turn,
      (send_message api h m).1 =
        h ++ ({ role := Role.user, content := m } :: rest) := by
  rcases send_message_fst api h m with heq | ⟨r, heq⟩
  · exact ⟨[], heq⟩
  · exact ⟨[{ role := Role.assistant, content := r }], heq⟩

/-- Claim C8: every transcript state reachable by any sequence of send
(successful or failed) and reset operations is non-empty, starts with the
system turn carrying the persona preamble, and has no other system turn. -/
theorem reachable_transcript_wellFormed {h : List Turn}
    (hr : Reachable h) : WellFormed h := by
  induction hr with
  | init => exact conversation_history_wellFormed
  | send api m hprev ih =>
      rcases send_message_fst api _ m with heq | ⟨r, heq⟩
      · rw [heq]
        refine wellFormed_append _ _ ih ?_
        intro t ht
        simp at ht
        subst ht
        simp
      · rw [heq]
        refine wellFormed_append _ _ ih ?_
        intro t ht
        simp at ht
        rcases ht with ht | ht <;> subst ht <;> simp
  | reset hprev ih => exact conversation_history_wellFormed

/-- Witness for C8: the state reached by one failed send after start is
well-formed. -/
theorem reachable_transcript_wellFormed_witness :
    WellFormed (send_message (fun _ => Except.error "boom")
      conversation_history "hi").1 :=
  reachable_transcript_wellFormed
    (Reachable.send (fun _ => Except.error "boom") "hi" Reachable.init)

/-- Claim C9: `get_chat_response` reads the first element of the response
choices without a guard: when the provider returns a response with at least
one choice it yields that first choice's message content, and when the
choices sequence is empty the unguarded index access fails with the
IndexError text, which is then surfaced unhandled. -/
theorem get_chat_response_first_choice
    (api : List Turn → Except String ChatCompletion)
    (messages : List Turn) (resp : ChatCompletion)
    (hok : api messages = Except.ok resp) :
    (resp.choices = [] →
      get_chat_response api messages =
        Except.error "list index out of range") ∧
    ∀ (c : Choice) (rest : List Choice), resp.choices = c :: rest →
      get_chat_response api messages = Except.ok c.message.content := by
  constructor
  · intro hempty
    simp [get_chat_response, hok, hempty]
  · intro c rest hcons
    simp [get_chat_response, hok, hcons]

/-- Witness for C9: a provider responding with an empty choices list makes
`get_chat_response` fail with the IndexError text, and one responding with
a single `"pong"` choice makes it return `"pong"`. -/
theorem get_chat_response_first_choice_witness :
    get_chat_response
        (fun _ => Except.ok ({ choices := [] } : ChatCompletion)) [] =
      Except.error "list index out of range" ∧
    get_chat_response (fun _ => Except.ok pongCompletion) [] =
      Except.ok "pong" :=
  ⟨(get_chat_response_first_choice
      (fun _ => Except.ok ({ choices := [] } : ChatCompletion)) []
      { choices := [] } rfl).1 rfl,
   (get_chat_response_first_choice
      (fun _ => Except.ok pongCompletion) [] pongCompletion rfl).2
      { message := { content := "pong" } } [] rfl⟩

/-- Claim C10: the read-only endpoints never touch conversation state: for
every transcript, `health` returns `{"status": "healthy"}` and leaves the
transcript unchanged, and `root` likewise leaves the transcript
unchanged. -/
theorem readonly_endpoints_leave_transcript :
    ∀ h : List Turn,
      (health h).1 = h ∧ (health h).2 = { status := "healthy" } ∧
      (root h).1 = h :=
  fun _ => ⟨rfl, rfl, rfl⟩

end PersonaGPT
